import Mathlib

/-!
Verification of the `ctabustracker` client library (`ctabustracker/bustracker.py`)
against its natural-language specification.

The development shallowly embeds the parts of the source the claims are about:

* the retrying HTTP fetch layer `_grab_url` (the network is an oracle mapping
  the index of each `urlopen` call to its outcome, and the observable trace —
  number of attempts and `time.sleep` durations — is returned alongside the
  result);
* the XML response parsers (`get_vehicle`, `get_route_vehicles`,
  `get_route_stops`, `get_pattern`, `get_route_patterns`,
  `_parse_predictions`, `_parse_service_bulletins`).

The parsers operate on an already-parsed XML tree (the module hands the raw
response to BeautifulStoneSoup; lexing is outside the model boundary).  The
BeautifulSoup 3 access idioms used by the source are embedded faithfully:

* `tag.foo` is `Tag.__getattr__`, i.e. the first descendant element named
  `foo` in document order, or `None` when there is none (no exception);
* `tag.string` is the `Tag.string` property: the single child when the tag
  has exactly one child and it is a `NavigableString`, else `None`;
* `str(x)` of an optional string renders `None` as `"None"`;
* fallible Python expressions (attribute access on `None`, `int`/`float`
  conversion, `datetime.strptime`, subscripting an empty list, `raise`)
  are embedded in the `Except` monad over a small error taxonomy.
-/

set_option autoImplicit false

namespace CTABusTracker

/-- Python exception kinds observable from the embedded code paths. -/
inductive PyErr where
  | attributeError
  | typeError
  | valueError
  | indexError
  | exception (msg : String)
deriving Repr, DecidableEq

/-! ## XML documents as parsed by BeautifulStoneSoup -/

mutual
/-- A node of the parsed XML tree: an element (`Tag`) with a name and ordered
children, or a text node (`NavigableString`).  The children are a bespoke
`NodeList` so that all tree traversals are structurally recursive and reduce
inside the kernel. -/
inductive Node where
  | element : String → NodeList → Node
  | text : String → Node

/-- An ordered sequence of sibling nodes. -/
inductive NodeList where
  | nil : NodeList
  | cons : Node → NodeList → NodeList
end

/-- Convert a regular list of nodes into a `NodeList` (literal construction). -/
def nlist : List Node → NodeList
  | [] => NodeList.nil
  | n :: ns => NodeList.cons n (nlist ns)

/-- An element with a single text child, e.g. `<vid>1682</vid>`. -/
def leaf (name s : String) : Node :=
  Node.element name (NodeList.cons (Node.text s) NodeList.nil)

/-- The direct contents of a tag (`Tag.__iter__` iterates `self.contents`). -/
def nodeChildren : Node → List Node
  | Node.element _ cs =>
    let rec toList : NodeList → List Node
      | NodeList.nil => []
      | NodeList.cons c cs => c :: toList cs
    toList cs
  | Node.text _ => []

mutual
/-- All elements named `name` in the subtree rooted at a node, in document
(pre-order) order, the root included when it matches.  This is BeautifulSoup's
`findAll(name)` search space. -/
def findAllNode (name : String) (node : Node) : List Node :=
  match node with
  | Node.text _ => []
  | Node.element n cs =>
    if n = name then Node.element n cs :: findAllInList name cs
    else findAllInList name cs
termination_by structural node

/-- All elements named `name` at or below any node of the list, in document
order. -/
def findAllInList (name : String) (l : NodeList) : List Node :=
  match l with
  | NodeList.nil => []
  | NodeList.cons c cs => findAllNode name c ++ findAllInList name cs
termination_by structural l
end

/-- `soup.findAll(name)`: every matching element of the document. -/
def soupFindAll (doc : Node) (name : String) : List Node :=
  findAllNode name doc

/-- `tag.findAll(name)`: every matching element strictly below `tag`. -/
def tagFindAll (t : Node) (name : String) : List Node :=
  match t with
  | Node.element _ cs => findAllInList name cs
  | Node.text _ => []

/-- `tag.name` attribute access (`Tag.__getattr__`): the first descendant
element with the given name, or `None` when absent — BeautifulSoup 3 returns
`self.find(name)` here and never raises for ordinary names. -/
def tagAttr (t : Node) (name : String) : Option Node :=
  (tagFindAll t name).head?

/-- The `Tag.string` property of BeautifulSoup 3: defined exactly when the tag
has one child and that child is a `NavigableString`. -/
def tagString : Node → Option String
  | Node.element _ (NodeList.cons (Node.text s) NodeList.nil) => some s
  | _ => none

/-- `x.string` where `x` came from a `tag.foo` lookup: `None.string` raises
`AttributeError`; on a tag it is the `string` property. -/
def optTagString : Option Node → Except PyErr (Option String)
  | none => Except.error PyErr.attributeError
  | some t => Except.ok (tagString t)

/-- `str(x)` applied to an optional string — `str(None)` is `"None"`. -/
def pyStr : Option String → String
  | none => "None"
  | some s => s

/-- Python `==` between the result of a BeautifulSoup attribute lookup and a
string literal (the `pt.type == 'S'` comparison in `get_pattern`).  `None`
never equals a `str`, and a BeautifulSoup 3 `Tag.__eq__` against a `str`
returns `False` because a `str` has no `contents` attribute; so the
comparison is `False` for every operand. -/
def pyEqTagStr (x : Option Node) (s : String) : Bool :=
  match x, s with
  | none, _ => false
  | some _, _ => false

/-! ## Python scalar conversions -/

/-- Digit value of a character, if it is a decimal digit. -/
def digitVal? (c : Char) : Option Nat :=
  if c.isDigit then some (c.toNat - 48) else none

/-- Accumulate a run of decimal digits; `none` on the first non-digit. -/
def natOfDigitsAux : List Char → Nat → Option Nat
  | [], acc => some acc
  | c :: cs, acc =>
    match digitVal? c with
    | some d => natOfDigitsAux cs (acc * 10 + d)
    | none => none

/-- Parse a nonempty all-digit character run as a natural number. -/
def natOfDigits? : List Char → Option Nat
  | [] => none
  | c :: cs => natOfDigitsAux (c :: cs) 0

/-- `int(x)` on an optional string: `int(None)` raises `TypeError`, a
non-integer literal raises `ValueError`.  (The literal core — an optional
minus sign followed by digits — is modelled; surrounding whitespace and `+`,
which Python also accepts and the API never sends, are not.) -/
def pyInt (s : Option String) : Except PyErr Int :=
  match s with
  | none => Except.error PyErr.typeError
  | some s =>
    match s.toList with
    | '-' :: rest =>
      match natOfDigits? rest with
      | some n => Except.ok (-(n : Int))
      | none => Except.error PyErr.valueError
    | chars =>
      match natOfDigits? chars with
      | some n => Except.ok (n : Int)
      | none => Except.error PyErr.valueError

/-- The exact value of a parsed decimal literal, kept as
`mant / 10 ^ exp` without normalisation.  The decimal strings the API sends
are far below the precision where IEEE-754 rounding could be observed, and no
claim compares values arising from differently written literals, so the
unnormalised exact form is an adequate model of a Python `float`. -/
structure PyFloat where
  mant : Int
  exp : Nat
deriving Repr, DecidableEq

/-- Parse a decimal literal (optional sign, digits, optional fractional
part); the shape `float(...)` receives from the API. -/
def parseDecimal? (s : String) : Option PyFloat :=
  let core (body : List Char) : Option PyFloat :=
    match body.splitOn '.' with
    | [intPart] =>
      (natOfDigits? intPart).map (fun n => { mant := (n : Int), exp := 0 })
    | [intPart, fracPart] =>
      match natOfDigits? intPart, natOfDigits? fracPart with
      | some n, some f =>
        some { mant := (n : Int) * (10 : Int) ^ fracPart.length + (f : Int),
               exp := fracPart.length }
      | _, _ => none
    | _ => none
  match s.toList with
  | '-' :: rest => (core rest).map (fun q => { q with mant := -q.mant })
  | chars => core chars

/-- `float(x)` on an optional string. -/
def pyFloat (s : Option String) : Except PyErr PyFloat :=
  match s with
  | none => Except.error PyErr.typeError
  | some s =>
    match parseDecimal? s with
    | some q => Except.ok q
    | none => Except.error PyErr.valueError

/-- Truncation toward zero, Python's `int(float_value)`. -/
def pyTrunc (q : PyFloat) : Int :=
  if 0 ≤ q.mant then q.mant / ((10 : Int) ^ q.exp)
  else -((-q.mant) / ((10 : Int) ^ q.exp))

/-- `int(float(x))` on an optional string (the `ln` field of a pattern). -/
def pyIntOfFloat (s : Option String) : Except PyErr Int :=
  match pyFloat s with
  | Except.ok q => Except.ok (pyTrunc q)
  | Except.error e => Except.error e

/-- The result of `datetime.strptime`; seconds stay `0` for the minute-level
format used by the vehicle and prediction timestamps. -/
structure PyDateTime where
  year : Nat
  month : Nat
  day : Nat
  hour : Nat
  minute : Nat
  second : Nat
deriving Repr, DecidableEq

/-- Days in a month of the proleptic Gregorian calendar (what `datetime`
validates against). -/
def daysInMonth (y m : Nat) : Nat :=
  if m = 2 then (if (y % 4 = 0 ∧ y % 100 ≠ 0) ∨ y % 400 = 0 then 29 else 28)
  else if m = 4 ∨ m = 6 ∨ m = 9 ∨ m = 11 then 30 else 31

/-- `datetime.strptime(x, '%Y%m%d %H:%M')` on an optional string:
`strptime(None, ...)` raises `TypeError`; a string not matching the format or
denoting an invalid date raises `ValueError`. -/
def strptimeYmdHM (os : Option String) : Except PyErr PyDateTime :=
  match os with
  | none => Except.error PyErr.typeError
  | some s =>
    match s.toList with
    | [y1, y2, y3, y4, a1, a2, b1, b2, sp, h1, h2, co, n1, n2] =>
      match [y1, y2, y3, y4, a1, a2, b1, b2, h1, h2, n1, n2].mapM digitVal? with
      | some [p1, p2, p3, p4, q1, q2, r1, r2, u1, u2, v1, v2] =>
        if sp = ' ' ∧ co = ':' then
          let y := ((p1 * 10 + p2) * 10 + p3) * 10 + p4
          let mo := q1 * 10 + q2
          let dd := r1 * 10 + r2
          let hh := u1 * 10 + u2
          let mi := v1 * 10 + v2
          if 1 ≤ mo ∧ mo ≤ 12 ∧ 1 ≤ dd ∧ dd ≤ daysInMonth y mo ∧ hh ≤ 23 ∧ mi ≤ 59
          then Except.ok ⟨y, mo, dd, hh, mi, 0⟩
          else Except.error PyErr.valueError
        else Except.error PyErr.valueError
      | _ => Except.error PyErr.valueError
    | _ => Except.error PyErr.valueError

/-! ## Dictionaries

CPython `dict` assignment, modelled as an association list updated in place:
assigning to an existing key replaces its value, assigning a fresh key appends
it.  Insertion order is an implementation detail of the model (the spec
guarantees no iteration order for the returned mappings); lookups are what
the claims consume. -/

/-- `d[k] = v`. -/
def dictSet {α : Type} (k : String) (v : α) : List (String × α) → List (String × α)
  | [] => [(k, v)]
  | (k', v') :: rest => if k' = k then (k, v) :: rest else (k', v') :: dictSet k v rest

/-- `d.get(k)`. -/
def dictGet? {α : Type} (k : String) : List (String × α) → Option α
  | [] => none
  | (k', v') :: rest => if k' = k then some v' else dictGet? k rest

/-! ## Configuration and the retrying fetcher -/

/-- The state `CTABusTracker.__init__` stores on the instance. -/
structure Config where
  api_key : String
  retry_urls : Bool
  retry_attempts : Int
  retry_delay : Int
  retry_backoff : Int
deriving Repr, DecidableEq

/-- `CTABusTracker(api_key)` with the constructor's default keyword values
(`retry_urls=True, retry_attempts=3, retry_delay=3, retry_backoff=2`). -/
def trackerDefault (api_key : String) : Config :=
  { api_key := api_key, retry_urls := true, retry_attempts := 3,
    retry_delay := 3, retry_backoff := 2 }

deriving instance DecidableEq for Except

/-- A `urlopen` failure (`URLError`), carrying its message. -/
abbrev UrlError := String

/-- The observable behaviour of one `_grab_url` call: the value returned (or
the uncaught exception), the number of `urlopen` calls made, and the sequence
of `time.sleep` durations in the order they were performed. -/
structure GrabResult (α : Type) where
  result : Except UrlError α
  attempts : Nat
  waits : List Int
deriving Repr, DecidableEq

/-- The `while attempts_remaining > 1` loop of `_grab_url`.  `fuel` is the
number of guarded iterations still available, i.e. `attempts_remaining - 1`;
`i` indexes the next `urlopen` call; `d` is the current `delay`; `ws`
accumulates the sleeps performed so far.  Each guarded iteration returns on
success and on `URLError` sleeps `d`, then retries with `d * backoff`; once
the guard fails the final `urlopen` runs outside any handler. -/
def grabUrlLoop {α : Type} (t : Nat → Except UrlError α) (backoff : Int) :
    Nat → Nat → Int → List Int → GrabResult α
  | 0, i, _, ws => { result := t i, attempts := i + 1, waits := ws }
  | n + 1, i, d, ws =>
    match t i with
    | Except.ok r => { result := Except.ok r, attempts := i + 1, waits := ws }
    | Except.error _ => grabUrlLoop t backoff n (i + 1) (d * backoff) (ws ++ [d])

/-- `_grab_url(url)`: the transport oracle `t` gives the outcome of each
successive `urlopen(url, timeout=5)` call.  `attempts_remaining` starts at
`retry_attempts` and the loop guard is `attempts_remaining > 1`, so
`(retry_attempts - 1).toNat` guarded iterations are available before the
final unguarded attempt. -/
def grabUrl {α : Type} (cfg : Config) (t : Nat → Except UrlError α) : GrabResult α :=
  grabUrlLoop t cfg.retry_backoff (cfg.retry_attempts - 1).toNat 0 cfg.retry_delay []

/-! ## Vehicles (`get_vehicle`, `get_route_vehicles`) -/

/-- The vehicle record dictionary. -/
structure Vehicle where
  id : String
  last_update : PyDateTime
  latitude : String
  longitude : String
  heading : Int
  pattern_id : String
  route_id : String
  destination : String
  distance_into_route : PyFloat
  delayed : Bool
deriving Repr, DecidableEq

/-- The `dly` check shared by `get_vehicle` and `get_route_vehicles`:
`hasattr(tag.dly, 'string') and tag.dly.string == 'true'`.  When `dly` is
absent the lookup yields `None`, which has no `string` attribute, so the
conjunction is `False`; when present, `Tag.string` always exists and the
value is compared (case-sensitively) against the literal `'true'`. -/
def dlyFlag (tag : Node) : Bool :=
  match tagAttr tag "dly" with
  | none => false
  | some d => tagString d == some "true"

/-- Build one vehicle dictionary from a `vehicle` element, evaluating the
literal's fields in source order; the `delayed` key is then set from the
`dly` check. -/
def parseVehicleTag (tag : Node) : Except PyErr Vehicle := do
  let vid ← optTagString (tagAttr tag "vid")
  let tm ← optTagString (tagAttr tag "tmstmp")
  let lastUpdate ← strptimeYmdHM tm
  let lat ← optTagString (tagAttr tag "lat")
  let lon ← optTagString (tagAttr tag "lon")
  let hdg ← optTagString (tagAttr tag "hdg")
  let heading ← pyInt hdg
  let pid ← optTagString (tagAttr tag "pid")
  let rt ← optTagString (tagAttr tag "rt")
  let des ← optTagString (tagAttr tag "des")
  let pdist ← optTagString (tagAttr tag "pdist")
  let dist ← pyFloat pdist
  Except.ok
    { id := pyStr vid, last_update := lastUpdate, latitude := pyStr lat,
      longitude := pyStr lon, heading := heading, pattern_id := pyStr pid,
      route_id := pyStr rt, destination := pyStr des,
      distance_into_route := dist, delayed := dlyFlag tag }

/-- `get_vehicle(vehicle_id)` applied to the parsed response: more than one
`vehicle` element raises the ambiguity `Exception`; `vehicle_tags[0]` on an
empty result raises `IndexError`; otherwise the single element is parsed. -/
def get_vehicle (doc : Node) : Except PyErr Vehicle :=
  if 1 < (soupFindAll doc "vehicle").length then
    Except.error (PyErr.exception "Multiple buses with the same id?")
  else
    match soupFindAll doc "vehicle" with
    | [] => Except.error PyErr.indexError
    | tag :: _ => parseVehicleTag tag

/-- Loop body of `get_route_vehicles`: parse the vehicle dictionary, then
store it under the key `str(tag.vid.string)` (recomputed for the
assignment, like the source). -/
def vehEntry (acc : List (String × Vehicle)) (tag : Node) :
    Except PyErr (List (String × Vehicle)) := do
  let v ← parseVehicleTag tag
  let ks ← optTagString (tagAttr tag "vid")
  Except.ok (dictSet (pyStr ks) v acc)

/-- `get_route_vehicles(route_id)` applied to the parsed response: every
`vehicle` element becomes an entry of the dictionary keyed by vehicle id. -/
def get_route_vehicles (doc : Node) : Except PyErr (List (String × Vehicle)) :=
  (soupFindAll doc "vehicle").foldlM vehEntry []

/-! ## Stops (`get_route_stops`) -/

/-- The stop record dictionary. -/
structure Stop where
  id : String
  name : String
  latitude : String
  longitude : String
deriving Repr, DecidableEq

/-- Build one stop dictionary entry from a `stop` element — the body of the
`try` block, fields in source order.  Any of the four lookups yielding `None`
makes the subsequent `.string` access raise `AttributeError`. -/
def parseStopTag (tag : Node) : Except PyErr (String × Stop) := do
  let sid ← optTagString (tagAttr tag "stpid")
  let snm ← optTagString (tagAttr tag "stpnm")
  let lat ← optTagString (tagAttr tag "lat")
  let lon ← optTagString (tagAttr tag "lon")
  Except.ok (pyStr sid,
    { id := pyStr sid, name := pyStr snm, latitude := pyStr lat, longitude := pyStr lon })

/-- Loop body of `get_route_stops`: `except AttributeError: continue` keeps
the accumulator unchanged; any other exception would propagate. -/
def stopEntry (acc : List (String × Stop)) (tag : Node) :
    Except PyErr (List (String × Stop)) :=
  match parseStopTag tag with
  | Except.ok kv => Except.ok (dictSet kv.1 kv.2 acc)
  | Except.error PyErr.attributeError => Except.ok acc
  | Except.error e => Except.error e

/-- `get_route_stops(route_id, direction)` applied to the parsed response. -/
def get_route_stops (doc : Node) : Except PyErr (List (String × Stop)) :=
  (soupFindAll doc "stop").foldlM stopEntry []

/-- A `stop` element has all four sub-elements the entry extraction
touches (`stpid`, `stpnm`, `lat`, `lon`). -/
def stopComplete (tag : Node) : Bool :=
  (tagAttr tag "stpid").isSome && (tagAttr tag "stpnm").isSome &&
    (tagAttr tag "lat").isSome && (tagAttr tag "lon").isSome

/-- The key a complete `stop` element is stored under: `str(tag.stpid.string)`. -/
def stopKey (tag : Node) : String :=
  pyStr ((tagAttr tag "stpid").bind tagString)

/-- The record a complete `stop` element is stored as. -/
def stopRecord (tag : Node) : Stop :=
  { id := stopKey tag,
    name := pyStr ((tagAttr tag "stpnm").bind tagString),
    latitude := pyStr ((tagAttr tag "lat").bind tagString),
    longitude := pyStr ((tagAttr tag "lon").bind tagString) }

/-! ## Patterns (`get_pattern`, `get_route_patterns`) -/

/-- One point of a pattern's path. -/
structure PathPoint where
  id : String
  type : String
  latitude : String
  longitude : String
  stop_id : Option String
  stop_name : Option String
deriving Repr, DecidableEq

/-- The pattern record dictionary; `path` is keyed by `str(pt.seq.string)`. -/
structure Pattern where
  id : String
  length : Int
  route_direction : String
  path : List (String × PathPoint)
deriving Repr, DecidableEq

/-- Build one path-point entry from a `pt` element.  The dictionary literal
(`id`, `type`, `latitude`, `longitude`) is evaluated first; then the source
tests `pt.type == 'S'` — the attribute lookup for a child tag named `type`,
compared against a `str` (see `pyEqTagStr`) — to decide whether to populate
`stop_id`/`stop_name` from `stpid`/`stpnm` or set them to `None`. -/
def parsePtTag (pt : Node) : Except PyErr (String × PathPoint) := do
  let seq ← optTagString (tagAttr pt "seq")
  let typ ← optTagString (tagAttr pt "typ")
  let lat ← optTagString (tagAttr pt "lat")
  let lon ← optTagString (tagAttr pt "lon")
  if pyEqTagStr (tagAttr pt "type") "S" then do
    let sid ← optTagString (tagAttr pt "stpid")
    let snm ← optTagString (tagAttr pt "stpnm")
    Except.ok (pyStr seq,
      { id := pyStr seq, type := pyStr typ, latitude := pyStr lat,
        longitude := pyStr lon, stop_id := some (pyStr sid),
        stop_name := some (pyStr snm) })
  else
    Except.ok (pyStr seq,
      { id := pyStr seq, type := pyStr typ, latitude := pyStr lat,
        longitude := pyStr lon, stop_id := none, stop_name := none })

/-- Build one pattern dictionary from a `ptr` element: `pid`,
`int(float(ln))`, `rtdir`, then every `pt` descendant in document order into
the `path` dictionary. -/
def parsePtrTag (tag : Node) : Except PyErr Pattern := do
  let pid ← optTagString (tagAttr tag "pid")
  let ln ← optTagString (tagAttr tag "ln")
  let lnInt ← pyIntOfFloat ln
  let rtdir ← optTagString (tagAttr tag "rtdir")
  let path ← (tagFindAll tag "pt").foldlM
    (fun acc pt => do
      let kv ← parsePtTag pt
      Except.ok (dictSet kv.1 kv.2 acc))
    ([] : List (String × PathPoint))
  Except.ok { id := pyStr pid, length := lnInt, route_direction := pyStr rtdir, path := path }

/-- `get_pattern(pattern_id)` applied to the parsed response: more than one
`ptr` element raises the ambiguity `Exception`; `pattern_tags[0]` on an empty
result raises `IndexError`; otherwise the single element is parsed. -/
def get_pattern (doc : Node) : Except PyErr Pattern :=
  if 1 < (soupFindAll doc "ptr").length then
    Except.error (PyErr.exception "Multiple patterns with the same id?")
  else
    match soupFindAll doc "ptr" with
    | [] => Except.error PyErr.indexError
    | tag :: _ => parsePtrTag tag

/-- `get_route_patterns(route_id)` applied to the parsed response: every
`ptr` element becomes an entry keyed by `str(tag.pid.string)`, which is the
parsed pattern's `id` field. -/
def get_route_patterns (doc : Node) : Except PyErr (List (String × Pattern)) :=
  (soupFindAll doc "ptr").foldlM
    (fun acc tag => do
      let p ← parsePtrTag tag
      Except.ok (dictSet p.id p acc))
    []

/-! ## Predictions (`_parse_predictions` and its three entry points) -/

/-- The prediction dictionary literal built for each `prd` element (the
`delay` key is never reached, see `parse_predictions`). -/
structure Prediction where
  last_update : PyDateTime
  type : String
  stop_id : String
  stop_name : String
  distance_to_destination : Int
  vehicle_id : String
  route_id : String
  direction : String
  destination : String
  prediction : PyDateTime
deriving Repr, DecidableEq

/-- The dictionary literal of `_parse_predictions`, fields in source order. -/
def parsePrdLiteral (tag : Node) : Except PyErr Prediction := do
  let tm ← optTagString (tagAttr tag "tmstmp")
  let lastUpdate ← strptimeYmdHM tm
  let typ ← optTagString (tagAttr tag "typ")
  let sid ← optTagString (tagAttr tag "stpid")
  let snm ← optTagString (tagAttr tag "stpnm")
  let dstp ← optTagString (tagAttr tag "dstp")
  let dist ← pyInt dstp
  let vid ← optTagString (tagAttr tag "vid")
  let rt ← optTagString (tagAttr tag "rt")
  let rtdir ← optTagString (tagAttr tag "rtdir")
  let des ← optTagString (tagAttr tag "des")
  let ptm ← optTagString (tagAttr tag "prdtm")
  let predTime ← strptimeYmdHM ptm
  Except.ok
    { last_update := lastUpdate, type := pyStr typ, stop_id := pyStr sid,
      stop_name := pyStr snm, distance_to_destination := dist,
      vehicle_id := pyStr vid, route_id := pyStr rt, direction := pyStr rtdir,
      destination := pyStr des, prediction := predTime }

/-- `_parse_predictions(url)` applied to the parsed response.  After building
the literal `p`, the source evaluates `hasattr(p.dly, 'string')` — but `p` is
the dictionary just built, not the tag, and a `dict` has no attribute `dly`,
so the argument expression raises `AttributeError` before `hasattr` is
consulted and before `p` is appended.  A response with no `prd` elements
still returns the empty list. -/
def parse_predictions (doc : Node) : Except PyErr (List Prediction) :=
  (soupFindAll doc "prd").foldlM
    (fun _acc tag => do
      let _p ← parsePrdLiteral tag
      (Except.error PyErr.attributeError : Except PyErr (List Prediction)))
    ([] : List Prediction)

/-- `get_vehicle_predictions(vehicle_id)`: builds the `vid`-filtered URL and
funnels the response through `_parse_predictions`. -/
def get_vehicle_predictions (doc : Node) : Except PyErr (List Prediction) :=
  parse_predictions doc

/-- `get_route_predictions(route_id)`: builds the `rt`-filtered URL and
funnels the response through `_parse_predictions`. -/
def get_route_predictions (doc : Node) : Except PyErr (List Prediction) :=
  parse_predictions doc

/-- `get_stop_predictions(stop_id)`: builds the `stpid`-filtered URL and
funnels the response through `_parse_predictions`. -/
def get_stop_predictions (doc : Node) : Except PyErr (List Prediction) :=
  parse_predictions doc

/-! ## Service bulletins (`_parse_service_bulletins`) -/

/-- The service-bulletin record dictionary; `affects` holds
`("stop", id)`/`("route", id)` pairs. -/
structure Bulletin where
  title : String
  details_full : String
  details_short : String
  priority : String
  affects : List (String × String)
deriving Repr, DecidableEq

/-- Classify one direct child of the `srvc` element: a `NavigableString` has
no `name` attribute and is skipped; a `stpid` element is tagged `"stop"`, an
`rt` element `"route"`, any other element is ignored. -/
def parseSrvcChild (n : Node) : Option (String × String) :=
  match n with
  | Node.text _ => none
  | Node.element nm cs =>
    if nm = "stpid" then some ("stop", pyStr (tagString (Node.element nm cs)))
    else if nm = "rt" then some ("route", pyStr (tagString (Node.element nm cs)))
    else none

/-- Build one bulletin dictionary from an `sb` element.  The guard
`hasattr(tag, 'srvc')` is always `True`: BeautifulSoup's attribute lookup
returns the first matching descendant or `None` and never raises for this
name.  The loop `for elem in tag.srvc` therefore runs unconditionally, and
when the `srvc` lookup produced `None` iterating it raises `TypeError`. -/
def parseSbTag (tag : Node) : Except PyErr Bulletin := do
  let sbj ← optTagString (tagAttr tag "sbj")
  let dtl ← optTagString (tagAttr tag "dtl")
  let brf ← optTagString (tagAttr tag "brf")
  let prty ← optTagString (tagAttr tag "prty")
  match tagAttr tag "srvc" with
  | none => Except.error PyErr.typeError
  | some srvc =>
    Except.ok
      { title := pyStr sbj, details_full := pyStr dtl, details_short := pyStr brf,
        priority := pyStr prty,
        affects := (nodeChildren srvc).filterMap parseSrvcChild }

/-- `_parse_service_bulletins(url)` applied to the parsed response: every
`sb` element is parsed and appended in document order. -/
def parse_service_bulletins (doc : Node) : Except PyErr (List Bulletin) :=
  (soupFindAll doc "sb").foldlM
    (fun acc tag => do
      let b ← parseSbTag tag
      Except.ok (acc ++ [b]))
    []

/-! ## Concrete response documents and transports used by the witnesses -/

/-- A tracker built with the constructor defaults:
`retry_attempts = 3`, `retry_delay = 3`, `retry_backoff = 2`. -/
def cfg3 : Config := trackerDefault "TESTKEY"

/-- A transport that times out on its first two calls and succeeds on the
third. -/
def transport2Fail : Nat → Except UrlError String := fun i =>
  if i < 2 then Except.error "urlopen error timed out" else Except.ok "RESPONSE"

/-- A transport on which every call fails. -/
def transportAllFail : Nat → Except UrlError String := fun _ =>
  Except.error "urlopen error connection refused"

/-- The `delayed`/`delay` boolean coercion policy the spec states for
vehicle records: the flag is `true` exactly when a `dly` element is present
and its string value is literally `"true"`. -/
def VehicleDelayedSpec (tag : Node) (b : Bool) : Prop :=
  b = true ↔ ∃ d, tagAttr tag "dly" = some d ∧ tagString d = some "true"

/-- A well-formed `vehicle` element whose `dly` value is the literal
`"true"`. -/
def vehTagDlyTrue : Node :=
  Node.element "vehicle" (nlist
    [leaf "vid" "1682", leaf "tmstmp" "20100101 12:00", leaf "lat" "41.9",
     leaf "lon" "-87.7", leaf "hdg" "90", leaf "pid" "954", leaf "rt" "20",
     leaf "des" "Austin", leaf "pdist" "100", leaf "dly" "true"])

/-- A single-vehicle response whose `dly` value is `"true"`. -/
def vehDocDlyTrue : Node :=
  Node.element "bustime-response" (nlist [vehTagDlyTrue])

/-- The record `get_vehicle` builds from `vehDocDlyTrue`. -/
def vehRecordDlyTrue : Vehicle :=
  { id := "1682", last_update := ⟨2010, 1, 1, 12, 0, 0⟩, latitude := "41.9",
    longitude := "-87.7", heading := 90, pattern_id := "954", route_id := "20",
    destination := "Austin", distance_into_route := { mant := 100, exp := 0 },
    delayed := true }

/-- A response holding two `vehicle` elements and two `ptr` elements, all
empty — were any of them parsed, the field extraction itself would raise. -/
def ambiguousDoc : Node :=
  Node.element "bustime-response" (nlist
    [Node.element "vehicle" NodeList.nil, Node.element "vehicle" NodeList.nil,
     Node.element "ptr" NodeList.nil, Node.element "ptr" NodeList.nil])

/-- A response containing no `vehicle` and no `ptr` elements. -/
def emptyDoc : Node :=
  Node.element "bustime-response" NodeList.nil

/-- A well-formed `prd` element with no `dly` child. -/
def prdTagNoDly : Node :=
  Node.element "prd" (nlist
    [leaf "tmstmp" "20100101 12:00", leaf "typ" "A", leaf "stpid" "4759",
     leaf "stpnm" "Ashland and Lake", leaf "dstp" "1052", leaf "vid" "1682",
     leaf "rt" "20", leaf "rtdir" "East Bound", leaf "des" "Austin",
     leaf "prdtm" "20100101 12:08"])

/-- A predictions response with a single well-formed `prd` element, `dly`
absent. -/
def prdDocNoDly : Node :=
  Node.element "bustime-response" (nlist [prdTagNoDly])

/-- A predictions response whose single `prd` element also carries
`dly` = `"true"`. -/
def prdDocDlyTrue : Node :=
  Node.element "bustime-response" (nlist
    [Node.element "prd" (nlist
      [leaf "tmstmp" "20100101 12:00", leaf "typ" "A", leaf "stpid" "4759",
       leaf "stpnm" "Ashland and Lake", leaf "dstp" "1052", leaf "vid" "1682",
       leaf "rt" "20", leaf "rtdir" "East Bound", leaf "des" "Austin",
       leaf "prdtm" "20100101 12:08", leaf "dly" "true"])])

/-- A `pt` element typed `S` (stop) with `stpid` and `stpnm` present. -/
def ptStopTag : Node :=
  Node.element "pt" (nlist
    [leaf "seq" "1", leaf "typ" "S", leaf "lat" "41.88", leaf "lon" "-87.63",
     leaf "stpid" "4759", leaf "stpnm" "Ashland and Lake"])

/-- A `pt` element typed `W` (waypoint). -/
def ptWaypointTag : Node :=
  Node.element "pt" (nlist
    [leaf "seq" "2", leaf "typ" "W", leaf "lat" "41.89", leaf "lon" "-87.64"])

/-- A pattern response with one `ptr` holding the stop point then the
waypoint, in that sequence order. -/
def patternDoc : Node :=
  Node.element "bustime-response" (nlist
    [Node.element "ptr" (nlist
      [leaf "pid" "954", leaf "ln" "3000.0", leaf "rtdir" "East Bound",
       ptStopTag, ptWaypointTag])])

/-- What the source actually builds for `patternDoc`: both points — the stop
included — end with `stop_id = None` and `stop_name = None`. -/
def patternActual : Pattern :=
  { id := "954", length := 3000, route_direction := "East Bound",
    path :=
      [("1", { id := "1", type := "S", latitude := "41.88", longitude := "-87.63",
               stop_id := none, stop_name := none }),
       ("2", { id := "2", type := "W", latitude := "41.89", longitude := "-87.64",
               stop_id := none, stop_name := none })] }

/-- An `sb` element with no `srvc` child. -/
def sbTagNoSrvc : Node :=
  Node.element "sb" (nlist
    [leaf "sbj" "Detour", leaf "dtl" "Full detour details",
     leaf "brf" "Detour brief", leaf "prty" "low"])

/-- A service-bulletin response whose single bulletin has no `srvc` child. -/
def sbDocNoSrvc : Node :=
  Node.element "bustime-response" (nlist [sbTagNoSrvc])

/-- A service-bulletin response whose bulletin's `srvc` element has mixed
`stpid`/`rt` children, interleaved with whitespace text nodes and one
element of another name. -/
def sbDocMixed : Node :=
  Node.element "bustime-response" (nlist
    [Node.element "sb" (nlist
      [leaf "sbj" "Detour", leaf "dtl" "Full detour details",
       leaf "brf" "Detour brief", leaf "prty" "low",
       Node.element "srvc" (nlist
         [Node.text "\n", leaf "stpid" "4759", Node.text "\n", leaf "rt" "20",
          leaf "stpnm" "Ashland and Lake", leaf "stpid" "4760", Node.text "\n"])])])

/-- The bulletin record the source builds for `sbDocMixed`. -/
def sbRecordMixed : Bulletin :=
  { title := "Detour", details_full := "Full detour details",
    details_short := "Detour brief", priority := "low",
    affects := [("stop", "4759"), ("route", "20"), ("stop", "4760")] }

/-- A `stop` element carrying `stpid`, `lat` and `lon` but no `stpnm`. -/
def stopTagNoName : Node :=
  Node.element "stop" (nlist
    [leaf "stpid" "4759", leaf "lat" "41.88", leaf "lon" "-87.63"])

/-- A stop-list response whose single entry has latitude and longitude but
lacks the stop-name sub-element. -/
def stopDocNoName : Node :=
  Node.element "bustime-response" (nlist [stopTagNoName])

end CTABusTracker

namespace CTABusTracker

/-! ## Theorems -/

/-- Success/failure analysis of `Except` bind. -/
theorem except_bind_ok {ε α β : Type} (e : Except ε α) (f : α → Except ε β) (b : β) :
    e >>= f = Except.ok b ↔ ∃ a, e = Except.ok a ∧ f a = Except.ok b := by
  cases e with
  | error err => simp [Bind.bind, Except.bind]
  | ok a => simp [Bind.bind, Except.bind]

/-- When every guarded attempt fails, `grabUrlLoop` performs all of them,
sleeping the exponentially grown delays, and ends with the unguarded final
attempt, whose outcome it returns unchanged. -/
theorem grabUrlLoop_all_fail {α : Type} (t : Nat → Except UrlError α) (b : Int) :
    ∀ (fuel start : Nat) (d : Int) (ws : List Int),
      (∀ j, j < fuel → ∃ e, t (start + j) = Except.error e) →
      grabUrlLoop t b fuel start d ws =
        { result := t (start + fuel), attempts := start + fuel + 1,
          waits := ws ++ (List.range fuel).map (fun i => d * b ^ i) } := by
  intro fuel
  induction fuel with
  | zero =>
    intro start d ws _
    simp [grabUrlLoop]
  | succ n ih =>
    intro start d ws hf
    obtain ⟨e, he⟩ := hf 0 (Nat.succ_pos n)
    rw [Nat.add_zero] at he
    rw [grabUrlLoop, he, ih (start + 1) (d * b) (ws ++ [d])
      (fun j hj => by
        have := hf (j + 1) (by omega)
        simpa [Nat.add_assoc, Nat.add_comm 1 j] using this)]
    have hidx : start + 1 + n = start + (n + 1) := by omega
    rw [hidx]
    have hws : (ws ++ [d]) ++ (List.range n).map (fun i => d * b * b ^ i) =
        ws ++ (List.range (n + 1)).map (fun i => d * b ^ i) := by
      rw [List.append_assoc]
      have hfn : (fun i => d * b * b ^ i) = (fun i => d * b ^ (i + 1)) := by
        funext i
        ring
      rw [List.range_succ_eq_map, List.map_cons, List.map_map]
      simp [hfn, Function.comp]
    rw [hws]

/-- C1: if the transport fails (with a `URLError`) on the first
`retry_attempts - 1` `urlopen` calls and succeeds on the `retry_attempts`-th,
then `_grab_url` returns that successful response, having made exactly
`retry_attempts` attempts, and the sleeps performed between attempts are
`retry_delay * retry_backoff ^ i` seconds for `i = 0 .. retry_attempts - 2`. -/
theorem C1_backoff_then_success {α : Type} (cfg : Config)
    (t : Nat → Except UrlError α) (r : α)
    (hA : 1 ≤ cfg.retry_attempts)
    (hfail : ∀ i, i < cfg.retry_attempts.toNat - 1 → ∃ e, t i = Except.error e)
    (hok : t (cfg.retry_attempts.toNat - 1) = Except.ok r) :
    grabUrl cfg t =
      { result := Except.ok r, attempts := cfg.retry_attempts.toNat,
        waits := (List.range (cfg.retry_attempts.toNat - 1)).map
          (fun i => cfg.retry_delay * cfg.retry_backoff ^ i) } := by
  have hfe : (cfg.retry_attempts - 1).toNat = cfg.retry_attempts.toNat - 1 := by omega
  unfold grabUrl
  rw [hfe, grabUrlLoop_all_fail t cfg.retry_backoff (cfg.retry_attempts.toNat - 1) 0
    cfg.retry_delay [] (fun j hj => by simpa using hfail j (by omega))]
  have hidx : 0 + (cfg.retry_attempts.toNat - 1) = cfg.retry_attempts.toNat - 1 := by omega
  have hcnt : cfg.retry_attempts.toNat - 1 + 1 = cfg.retry_attempts.toNat := by omega
  rw [hidx, hok, hcnt]
  simp

/-- C1 witness: with the default configuration (`attempts = 3`, `delay = 3`,
`backoff = 2`) and a transport failing twice then succeeding, the fetch
returns the response after sleeps of 3 and 6 seconds. -/
theorem C1_witness :
    grabUrl cfg3 transport2Fail =
      { result := Except.ok "RESPONSE", attempts := 3, waits := [3, 6] } := by
  have hf : ∀ i, i < cfg3.retry_attempts.toNat - 1 → ∃ e, transport2Fail i = Except.error e := by
    intro i hi
    refine ⟨"urlopen error timed out", ?_⟩
    have h2 : i < 2 := by simpa [cfg3, trackerDefault] using hi
    simp [transport2Fail, h2]
  have hok : transport2Fail (cfg3.retry_attempts.toNat - 1) = Except.ok "RESPONSE" := by decide
  rw [C1_backoff_then_success cfg3 transport2Fail "RESPONSE" (by decide) hf hok]
  decide

/-- C2: if the transport fails on every call, `_grab_url` makes exactly
`retry_attempts` `urlopen` attempts and its outcome is exactly the outcome of
the final (`retry_attempts`-th) attempt — an error that surfaces to the
caller unchanged. -/
theorem C2_all_attempts_fail {α : Type} (cfg : Config)
    (t : Nat → Except UrlError α)
    (hA : 1 ≤ cfg.retry_attempts)
    (hfail : ∀ i, ∃ e, t i = Except.error e) :
    ((grabUrl cfg t).attempts : Int) = cfg.retry_attempts ∧
    (grabUrl cfg t).result = t (cfg.retry_attempts.toNat - 1) ∧
    ∃ e, (grabUrl cfg t).result = Except.error e := by
  have hfe : (cfg.retry_attempts - 1).toNat = cfg.retry_attempts.toNat - 1 := by omega
  have h := grabUrlLoop_all_fail t cfg.retry_backoff (cfg.retry_attempts.toNat - 1) 0
    cfg.retry_delay [] (fun j _ => by simpa using hfail j)
  unfold grabUrl
  rw [hfe, h]
  refine ⟨by simp; omega, by simp, ?_⟩
  simpa using hfail (0 + (cfg.retry_attempts.toNat - 1))

/-- C2 witness: with the default configuration and an always-failing
transport, three attempts are made and the third attempt's error is the
result. -/
theorem C2_witness :
    ((grabUrl cfg3 transportAllFail).attempts : Int) = cfg3.retry_attempts ∧
    (grabUrl cfg3 transportAllFail).result =
      transportAllFail (cfg3.retry_attempts.toNat - 1) ∧
    ∃ e, (grabUrl cfg3 transportAllFail).result = Except.error e :=
  C2_all_attempts_fail cfg3 transportAllFail (by decide)
    (fun _ => ⟨"urlopen error connection refused", rfl⟩)

/-- C9: the `retry_urls` flag stored by the constructor is never read by
`_grab_url`: for every transport and every configuration, flipping
`retry_urls` leaves the result, the number of attempts and the sleeps
performed — the whole observable behaviour — unchanged. -/
theorem C9_retry_urls_has_no_effect {α : Type} (cfg : Config) (u₁ u₂ : Bool)
    (t : Nat → Except UrlError α) :
    grabUrl { cfg with retry_urls := u₁ } t = grabUrl { cfg with retry_urls := u₂ } t := rfl

/-- C3: the claim says every `prd` entry yields a flat record with `delay`
defaulting to `false` when `dly` is absent; the code instead evaluates
`p.dly` on the dictionary `p` it just built (`tag.dly` was intended, as in
the vehicle parsers), so `_parse_predictions` — and with it all three public
prediction accessors — raises `AttributeError` on every response containing
at least one `prd` entry, whether or not `dly` is present. -/
theorem C3_predictions_raise_attribute_error :
    parse_predictions prdDocNoDly = Except.error PyErr.attributeError ∧
    parse_predictions prdDocDlyTrue = Except.error PyErr.attributeError ∧
    get_vehicle_predictions prdDocNoDly = parse_predictions prdDocNoDly ∧
    get_route_predictions prdDocNoDly = parse_predictions prdDocNoDly ∧
    get_stop_predictions prdDocNoDly = parse_predictions prdDocNoDly :=
  ⟨by decide, by decide, rfl, rfl, rfl⟩

/-- C4: the claim says stop-typed (`typ = 'S'`) points get `stop_id` and
`stop_name` populated from `stpid`/`stpnm`; the code instead tests
`pt.type == 'S'`, where `pt.type` is the BeautifulSoup lookup of a child tag
named `type` (absent here) and never equals a `str`, so the stop branch is
dead: the pattern below has an `S` point carrying `stpid`/`stpnm`, yet both
its `stop_id` and `stop_name` come back `None`, in `get_pattern` and in
`get_route_patterns` alike.  The sequence keys themselves are preserved in
order. -/
theorem C4_stop_points_lose_stop_fields :
    get_pattern patternDoc = Except.ok patternActual ∧
    get_route_patterns patternDoc = Except.ok [("954", patternActual)] ∧
    (tagAttr ptStopTag "typ").bind tagString = some "S" ∧
    (tagAttr ptStopTag "stpid").isSome = true ∧
    patternActual.path.map Prod.fst = ["1", "2"] :=
  ⟨by decide, by decide, by decide, rfl, by decide⟩

/-- C5: the claim says a bulletin without `srvc` children yields an empty
`affects` list; but `hasattr(tag, 'srvc')` is always `True` under
BeautifulSoup (the lookup returns `None` instead of raising), so the code
iterates `None` and raises `TypeError` on such a bulletin.  The second half
of the claim does hold: with a `srvc` element of mixed `stpid`/`rt` children
the `affects` list carries the tagged pairs in document order, skipping text
nodes and elements of other names. -/
theorem C5_bulletin_without_srvc_raises :
    parse_service_bulletins sbDocNoSrvc = Except.error PyErr.typeError ∧
    parse_service_bulletins sbDocMixed = Except.ok [sbRecordMixed] :=
  ⟨by decide, by decide⟩

/-- Bind of a success is the continuation. -/
theorem except_ok_bind {ε α β : Type} (a : α) (f : α → Except ε β) :
    (Except.ok a : Except ε α) >>= f = f a := rfl

/-- The `delayed` field of every successfully parsed vehicle record is
exactly the `dly` check on its element. -/
theorem parseVehicleTag_delayed {tag : Node} {v : Vehicle}
    (hv : parseVehicleTag tag = Except.ok v) : v.delayed = dlyFlag tag := by
  unfold parseVehicleTag at hv
  simp only [except_bind_ok, Except.ok.injEq] at hv
  obtain ⟨a1, -, a2, -, a3, -, a4, -, a5, -, a6, -, a7, -, a8, -, a9, -, a10, -,
    a11, -, a12, -, hv⟩ := hv
  subst hv
  rfl

/-- The `dly` check computes the spec's boolean coercion policy. -/
theorem dlyFlag_iff (tag : Node) : VehicleDelayedSpec tag (dlyFlag tag) := by
  unfold VehicleDelayedSpec dlyFlag
  cases h : tagAttr tag "dly" with
  | none => simp
  | some d => simp [beq_iff_eq]

/-- A successful `get_vehicle` means the response held exactly one `vehicle`
element, and the returned record is its parse. -/
theorem get_vehicle_ok_singleton {doc : Node} {v : Vehicle}
    (hv : get_vehicle doc = Except.ok v) :
    ∃ tag, soupFindAll doc "vehicle" = [tag] ∧ parseVehicleTag tag = Except.ok v := by
  unfold get_vehicle at hv
  split at hv
  · simp at hv
  · rename_i hlen
    split at hv
    · simp at hv
    · rename_i tag rest hls
      have hrest : rest = [] := by
        cases rest with
        | nil => rfl
        | cons x xs =>
          exfalso
          apply hlen
          rw [hls]
          simp
      subst hrest
      exact ⟨tag, hls, hv⟩

/-- If the `get_route_vehicles` fold succeeds, every traversed `vehicle`
element was parsed successfully. -/
theorem vehFold_ok {tags : List Node} :
    ∀ {acc vs : List (String × Vehicle)},
      List.foldlM vehEntry acc tags = Except.ok vs →
      ∀ tag ∈ tags, ∃ v, parseVehicleTag tag = Except.ok v := by
  induction tags with
  | nil =>
    intro acc vs _ tag htag
    cases htag
  | cons t ts ih =>
    intro acc vs h tag htag
    rw [List.foldlM_cons, except_bind_ok] at h
    obtain ⟨acc2, hb, hrest⟩ := h
    cases htag with
    | head =>
      unfold vehEntry at hb
      rw [except_bind_ok] at hb
      obtain ⟨v, hv, -⟩ := hb
      exact ⟨v, hv⟩
    | tail _ hmem => exact ih hrest tag hmem

/-- C6: for every vehicle element parsed by `get_vehicle` or
`get_route_vehicles`, the record's `delayed` field is `true` exactly when a
`dly` child is present with string value literally `"true"`; when `dly` is
absent, or present with any other value (`"True"`, `"1"`, … — the comparison
is case-sensitive, with no coercion), `delayed` is `false`. -/
theorem C6_delayed_iff_dly_literal_true (doc : Node) :
    (∀ v, get_vehicle doc = Except.ok v →
      ∃ tag, soupFindAll doc "vehicle" = [tag] ∧ VehicleDelayedSpec tag v.delayed) ∧
    (∀ vs, get_route_vehicles doc = Except.ok vs →
      ∀ tag, tag ∈ soupFindAll doc "vehicle" →
        ∃ v, parseVehicleTag tag = Except.ok v ∧ VehicleDelayedSpec tag v.delayed) := by
  constructor
  · intro v hv
    obtain ⟨tag, hls, hparse⟩ := get_vehicle_ok_singleton hv
    refine ⟨tag, hls, ?_⟩
    rw [parseVehicleTag_delayed hparse]
    exact dlyFlag_iff tag
  · intro vs hvs tag htag
    obtain ⟨v, hv⟩ := vehFold_ok hvs tag htag
    refine ⟨v, hv, ?_⟩
    rw [parseVehicleTag_delayed hv]
    exact dlyFlag_iff tag

/-- C6 witness: a response whose single vehicle carries `dly = "true"`
parses to a record with `delayed = true`, satisfying the policy. -/
theorem C6_witness :
    ∃ tag, soupFindAll vehDocDlyTrue "vehicle" = [tag] ∧
      VehicleDelayedSpec tag vehRecordDlyTrue.delayed :=
  (C6_delayed_iff_dly_literal_true vehDocDlyTrue).1 vehRecordDlyTrue (by decide)

/-- C7: whenever a response holds more than one `vehicle` element,
`get_vehicle` fails with the ambiguous-entity `Exception` — before any
record is constructed (the theorem holds for arbitrary, even unparsable,
vehicle elements); `get_pattern` does the same for more than one `ptr`. -/
theorem C7_ambiguous_entity_fatal (doc : Node) :
    (1 < (soupFindAll doc "vehicle").length →
      get_vehicle doc = Except.error (PyErr.exception "Multiple buses with the same id?")) ∧
    (1 < (soupFindAll doc "ptr").length →
      get_pattern doc = Except.error (PyErr.exception "Multiple patterns with the same id?")) := by
  constructor
  · intro h
    unfold get_vehicle
    rw [if_pos h]
  · intro h
    unfold get_pattern
    rw [if_pos h]

/-- C7 witness: on a response with two (empty, hence unparsable) `vehicle`
elements and two `ptr` elements, both accessors fail with the ambiguity
errors. -/
theorem C7_witness :
    get_vehicle ambiguousDoc =
      Except.error (PyErr.exception "Multiple buses with the same id?") ∧
    get_pattern ambiguousDoc =
      Except.error (PyErr.exception "Multiple patterns with the same id?") :=
  ⟨(C7_ambiguous_entity_fatal ambiguousDoc).1 (by decide),
   (C7_ambiguous_entity_fatal ambiguousDoc).2 (by decide)⟩

/-- C10: on a response with zero `vehicle` elements, `get_vehicle` raises
`IndexError` (subscripting the empty result list) instead of returning a
record or `None`; `get_pattern` behaves the same for zero `ptr` elements. -/
theorem C10_zero_match_fatal (doc : Node) :
    (soupFindAll doc "vehicle" = [] →
      get_vehicle doc = Except.error PyErr.indexError) ∧
    (soupFindAll doc "ptr" = [] →
      get_pattern doc = Except.error PyErr.indexError) := by
  constructor
  · intro h
    unfold get_vehicle
    rw [h]
    simp
  · intro h
    unfold get_pattern
    rw [h]
    simp

/-- C10 witness: both single-id accessors raise `IndexError` on an empty
response. -/
theorem C10_witness :
    get_vehicle emptyDoc = Except.error PyErr.indexError ∧
    get_pattern emptyDoc = Except.error PyErr.indexError :=
  ⟨(C10_zero_match_fatal emptyDoc).1 rfl, (C10_zero_match_fatal emptyDoc).2 rfl⟩

/-- One stop entry parses successfully exactly when all four sub-elements
are present, in which case it yields the key and record read off the tag. -/
theorem parseStopTag_eq (tag : Node) :
    parseStopTag tag =
      if stopComplete tag then Except.ok (stopKey tag, stopRecord tag)
      else Except.error PyErr.attributeError := by
  unfold parseStopTag stopComplete
  cases h1 : tagAttr tag "stpid" <;> cases h2 : tagAttr tag "stpnm" <;>
    cases h3 : tagAttr tag "lat" <;> cases h4 : tagAttr tag "lon" <;>
      simp [optTagString, Bind.bind, Except.bind, Option.bind, stopKey, stopRecord,
        h1, h2, h3, h4]

/-- The `get_route_stops` fold always succeeds and keeps exactly the complete
entries, in traversal order. -/
theorem stopsFold (tags : List Node) :
    ∀ acc : List (String × Stop),
      List.foldlM stopEntry acc tags =
        Except.ok ((tags.filter stopComplete).foldl
          (fun acc2 tag => dictSet (stopKey tag) (stopRecord tag) acc2) acc) := by
  induction tags with
  | nil => intro acc; simp [List.foldlM, Pure.pure, Except.pure]
  | cons t ts ih =>
    intro acc
    have hstep : stopEntry acc t =
        if stopComplete t then Except.ok (dictSet (stopKey t) (stopRecord t) acc)
        else Except.ok acc := by
      unfold stopEntry
      rw [parseStopTag_eq]
      by_cases hc : stopComplete t <;> simp [hc]
    rw [List.foldlM_cons, hstep]
    by_cases hc : stopComplete t
    · rw [if_pos hc, except_ok_bind, ih, List.filter_cons_of_pos hc, List.foldl_cons]
    · rw [if_neg hc, except_ok_bind, ih,
        List.filter_cons_of_neg (by simpa using hc)]

/-- C8 (amended): `get_route_stops` never fails, and the returned mapping is
built from exactly the `stop` entries having all four required sub-elements
(`stpid`, `stpnm`, `lat`, `lon`), keyed by stop id; an entry lacking any of
the four — not only latitude/longitude — is silently skipped, and every
complete entry is retained with its parsed record. -/
theorem C8_amended_stop_skip_any_missing_field (doc : Node) :
    get_route_stops doc =
      Except.ok (((soupFindAll doc "stop").filter stopComplete).foldl
        (fun acc tag => dictSet (stopKey tag) (stopRecord tag) acc) []) :=
  stopsFold (soupFindAll doc "stop") []

/-- C8 counterexample: a stop entry that has both `lat` and `lon` but lacks
`stpnm` is nevertheless skipped — the claim's "omits exactly the entries
lacking the required latitude/longitude sub-elements" is false on this
response, whose only entry is dropped despite having latitude and
longitude. -/
theorem C8_counterexample :
    (tagAttr stopTagNoName "lat").isSome = true ∧
    (tagAttr stopTagNoName "lon").isSome = true ∧
    soupFindAll stopDocNoName "stop" = [stopTagNoName] ∧
    get_route_stops stopDocNoName = Except.ok [] :=
  ⟨rfl, rfl, rfl, by decide⟩

end CTABusTracker
